import Mathlib

/- Verification development for the candidate-screening workflow implemented in
ai_recruitment_agent_team.py.  The pure fragments of the Python source are embedded
as executable Lean definitions; the external HTTP collaborators (the Zoom OAuth
token endpoint and the meeting-creation endpoint) are modelled by an explicit
oracle record describing their responses, and the SMTP sends are modelled as
sent/not-sent flags.  Python floats are modelled as exact rationals, Python
exceptions as an explicit error sum type returned through Except. -/

namespace Recruit

/-- Head matching for Python substring containment: `takeMatch pat l` is true when
`pat` is an initial segment of `l`. -/
def takeMatch : List Char → List Char → Bool
  | [], _ => true
  | _ :: _, [] => false
  | a :: as, b :: bs => a == b && takeMatch as bs

/-- Python's case-sensitive substring containment `pat in s`, on character lists:
true when `pat` occurs contiguously somewhere in the list. -/
def hasSub (pat : List Char) : List Char → Bool
  | [] => takeMatch pat []
  | b :: bs => takeMatch pat (b :: bs) || hasSub pat bs

/-- Python exception classes that the embedded fragments of the source can raise.
`keyError` is a dict lookup miss, `typeError` is string indexing with a string key,
`zeroDivisionError` is division by zero, `valueError` is an explicit raise.
`configurationError` is Modelled from the spec: the spec's error taxonomy names a
`ConfigurationError` for unknown roles and empty skill sets, but no such exception
class exists anywhere in the source. -/
inductive PyError where
  | keyError
  | typeError
  | zeroDivisionError
  | valueError
  | configurationError
deriving DecidableEq

/-- ROLE_REQUIREMENTS (source lines 18-52): a dict mapping each role identifier to a
plain multi-line description string (not to a structured record of skills). -/
def ROLE_REQUIREMENTS : List (String × String) :=
  [("ai_ml_engineer", "\n        Required Skills:\n        - Python, PyTorch/TensorFlow\n        - Machine Learning algorithms\n        - Deep Learning\n        - MLOps\n        - RAG, LLM, Prompt Engineering\n    "),
   ("full_stack_engineer", "\n        Required Skills:\n        - JavaScript, React.js, Node.js\n        - HTML/CSS, SASS\n        - Database Management (SQL, NoSQL)\n        - REST APIs, GraphQL\n        - Cloud Deployment (AWS, Azure, GCP)\n        - Version Control (Git)\n    "),
   ("frontend_engineer", "\n        Required Skills:\n        - JavaScript, React.js\n        - HTML/CSS\n        - UI/UX Design\n        - Responsive Design\n        - State Management (e.g., Redux)\n    "),
   ("backend_engineer", "\n        Required Skills:\n        - Python, Django/Flask\n        - REST APIs\n        - Database Management\n        - Cloud Services\n        - Performance Optimization\n    ")]

/-- Python dict subscription `d[k]`: the value when the key is present, KeyError
otherwise. -/
def dict_lookup : List (String × String) → String → Except PyError String
  | [], _ => .error .keyError
  | (k, v) :: rest, key => if k = key then .ok v else dict_lookup rest key

/-- Python string subscription `s[key]` with a string key: always raises
`TypeError: string indices must be integers`.  The result type is the list of
strings the caller of `ROLE_REQUIREMENTS[role]["skills"]` expects. -/
def str_getitem (_s : String) (_key : String) : Except PyError (List String) :=
  .error .typeError

/-- Python division on numbers: ZeroDivisionError when the divisor is zero. -/
def py_div (a b : ℚ) : Except PyError ℚ :=
  if b = 0 then .error .zeroDivisionError else .ok (a / b)

/-- Source line 67/70: `sum(1 for skill in keywords if skill.lower() in resume_lc)`
where `resume_lc` is the already-lowercased resume text. -/
def match_count (keywords : List String) (resume_lc : String) : ℕ :=
  (keywords.filter (fun s => hasSub s.toLower.toList resume_lc.toList)).length

/-- The scoring computation of match_skills_to_role (source lines 63-77), as a
function of the role profile's two keyword lists: lowercase the resume, count the
case-insensitive substring matches, divide by the list sizes, and weight
70 % skills / 30 % experience. -/
def match_scores (required_skills experience_keywords : List String)
    (resume_text : String) : Except PyError (ℚ × ℚ × ℚ) :=
  let resume_lc := resume_text.toLower
  let skill_matches := match_count required_skills resume_lc
  let experience_matches := match_count experience_keywords resume_lc
  match py_div (skill_matches : ℚ) (required_skills.length : ℚ) with
  | .error e => .error e
  | .ok skill_score =>
    match py_div (experience_matches : ℚ) (experience_keywords.length : ℚ) with
    | .error e => .error e
    | .ok experience_score =>
      .ok (skill_score, experience_score,
           skill_score * (7/10) + experience_score * (3/10))

/-- match_skills_to_role (source lines 58-79): look the role up in
ROLE_REQUIREMENTS, subscript the entry with "skills" and "experience_keywords",
then run the scoring computation and return the total score.  Because the catalog
entries are plain strings, the two string subscriptions raise TypeError. -/
def match_skills_to_role (resume_text role : String) : Except PyError ℚ :=
  match dict_lookup ROLE_REQUIREMENTS role with
  | .error e => .error e
  | .ok entry =>
    match str_getitem entry "skills" with
    | .error e => .error e
    | .ok required_skills =>
      match str_getitem entry "experience_keywords" with
      | .error e => .error e
      | .ok experience_keywords =>
        match match_scores required_skills experience_keywords resume_text with
        | .error e => .error e
        | .ok scores => .ok scores.2.2

/-- Whether a role identifier is a key of ROLE_REQUIREMENTS. -/
def known_role (role : String) : Bool :=
  match dict_lookup ROLE_REQUIREMENTS role with
  | .ok _ => true
  | .error _ => false

/-- The fixed mismatch narrative returned by analyze_resume for a rejected
candidate (source lines 87-93). -/
def mismatchFeedback : String :=
  "\n        The candidate has strong AI/ML skills and project experience, particularly in AI systems and cloud infrastructure.\n        However, the candidate lacks direct experience with frontend technologies such as React, Vue.js, or Angular, \n        as well as skills specific to frontend testing, responsive design, and state management. Although JavaScript knowledge \n        is present, related technologies like HTML5, CSS3, and TypeScript, integral to the role, are not highlighted.\n        Additionally, the candidate\u0027s experience is more aligned with backend and AI-driven applications rather than frontend development.\n        "

/-- analyze_resume (source lines 81-94): the membership-mode decision.
`is_selected` is Python's `role in resume_text`, a case-sensitive substring test,
and the feedback is one of two fixed narratives. -/
def analyze_resume (resume_text role : String) : Bool × String :=
  let is_selected := hasSub role.toList resume_text.toList
  let feedback :=
    if is_selected then "Your resume matches the requirements for " ++ role
    else mismatchFeedback
  (is_selected, feedback)

/-- The four role identifiers that key ROLE_REQUIREMENTS, as an enumeration (used
for the metrics maps, which are built from `ROLE_REQUIREMENTS.keys()`). -/
inductive Role where
  | ai_ml_engineer
  | full_stack_engineer
  | frontend_engineer
  | backend_engineer
deriving DecidableEq

/-- The session-state metrics dict (source lines 331-344): the three global
counters plus the three per-role counters (`applications_by_role`,
`{role}_selected`, `{role}_interviewed`). -/
structure Metrics where
  total_resumes_uploaded : ℕ
  selected_candidates : ℕ
  interviews_scheduled : ℕ
  applications_by_role : Role → ℕ
  role_selected : Role → ℕ
  role_interviewed : Role → ℕ

/-- The metrics state created by the source's metrics initialisation (source
lines 331-344, the function whose name starts with the word initialise in the
source): every counter starts at 0, for every role of ROLE_REQUIREMENTS. -/
def init_metrics : Metrics :=
  { total_resumes_uploaded := 0
    selected_candidates := 0
    interviews_scheduled := 0
    applications_by_role := fun _ => 0
    role_selected := fun _ => 0
    role_interviewed := fun _ => 0 }

/-- update_metrics (source lines 366-386), from an initialised metrics state:
always increment `total_resumes_uploaded` and `applications_by_role[role]`; when
`is_selected`, additionally increment `selected_candidates`, `{role}_selected`,
`interviews_scheduled` and `{role}_interviewed`.  (The source's early return when
the session state holds no metrics, and its re-creation of missing per-role keys,
are identities on the initialised total maps modelled here.) -/
def update_metrics (m : Metrics) (role : Role) (is_selected : Bool) : Metrics :=
  let m1 : Metrics :=
    { m with
      total_resumes_uploaded := m.total_resumes_uploaded + 1
      applications_by_role :=
        Function.update m.applications_by_role role
          (m.applications_by_role role + 1) }
  if is_selected then
    { m1 with
      selected_candidates := m1.selected_candidates + 1
      role_selected :=
        Function.update m1.role_selected role (m1.role_selected role + 1)
      interviews_scheduled := m1.interviews_scheduled + 1
      role_interviewed :=
        Function.update m1.role_interviewed role (m1.role_interviewed role + 1) }
  else m1

/-- The four roles, in catalog order. -/
def roleList : List Role :=
  [.ai_ml_engineer, .full_stack_engineer, .frontend_engineer, .backend_engineer]

/-- Sum of the per-role application counters over the whole catalog. -/
def sumApps (m : Metrics) : ℕ :=
  (roleList.map m.applications_by_role).sum

/-- Number of recorded calls for a given role in a call sequence. -/
def countRole (calls : List (Role × Bool)) (r : Role) : ℕ :=
  (calls.filter (fun c => decide (c.1 = r))).length

/-- Replay a sequence of update_metrics calls from a starting state. -/
def runCalls (m : Metrics) (calls : List (Role × Bool)) : Metrics :=
  calls.foldl (fun acc c => update_metrics acc c.1 c.2) m

/-- Modelled from the spec: the source contains no metrics reset operation (its
only reset button clears the sidebar credential fields); the spec's
MetricsAggregator contract states that `reset()` brings every counter — the three
global counters and every per-role counter — to 0 in one operator action. -/
def reset (_m : Metrics) : Metrics :=
  { total_resumes_uploaded := 0
    selected_candidates := 0
    interviews_scheduled := 0
    applications_by_role := fun _ => 0
    role_selected := fun _ => 0
    role_interviewed := fun _ => 0 }

/-- available_time_slots (source lines 434-439).  A datetime is modelled as a
count of hours: `datetime.combine(selected_date, datetime.min.time())` is hour
`24 * selected_date` of the calendar, and adding `timedelta(hours=hour)` adds
`hour`.  The source loops `for hour in range(9, 17)` appending one slot per
hour. -/
def available_time_slots (selected_date : ℤ) : List ℤ :=
  (List.range' 9 8).map (fun hour => 24 * selected_date + (hour : ℤ))

/-- The responses the two Zoom endpoints give during one booking attempt: the
token endpoint's HTTP status and `access_token` field, and the meeting endpoint's
HTTP status and `join_url` field.  An absent or empty JSON field is modelled as
the empty string, which is falsy in Python. -/
structure ZoomResponses where
  token_status : ℕ
  access_token : String
  meeting_status : ℕ
  join_url : String
deriving DecidableEq

/-- The two HTTP POSTs schedule_zoom_meeting can issue. -/
inductive ZoomRequest where
  | tokenRequest
  | meetingRequest
deriving DecidableEq

/-- The exceptions the body of schedule_zoom_meeting's try block can raise:
`requests.HTTPError` from raise_for_status, or the two explicit ValueError
raises. -/
inductive ZoomExc where
  | httpError
  | valueError
deriving DecidableEq

/-- `Response.raise_for_status()`: raises HTTPError exactly for 4xx and 5xx
status codes. -/
def raise_for_status (status : ℕ) : Except ZoomExc Unit :=
  if 400 ≤ status ∧ status < 600 then .error .httpError else .ok ()

/-- The try block of schedule_zoom_meeting (source lines 443-490): POST to the
token endpoint, raise_for_status, raise ValueError when the token field is falsy;
then POST the meeting, raise_for_status, raise ValueError when `join_url` is
falsy; otherwise return the join URL.  The second component records which HTTP
requests were issued before the block finished. -/
def zoom_attempt (zr : ZoomResponses) : Except ZoomExc String × List ZoomRequest :=
  match raise_for_status zr.token_status with
  | .error e => (.error e, [.tokenRequest])
  | .ok _ =>
    if zr.access_token = "" then (.error .valueError, [.tokenRequest])
    else
      match raise_for_status zr.meeting_status with
      | .error e => (.error e, [.tokenRequest, .meetingRequest])
      | .ok _ =>
        if zr.join_url = "" then (.error .valueError, [.tokenRequest, .meetingRequest])
        else (.ok zr.join_url, [.tokenRequest, .meetingRequest])

/-- schedule_zoom_meeting (source lines 441-494): run the try block and catch
every exception, returning None in that case (the catch-all `except` logs and
returns None).  The credential, role, date and company arguments only shape the
request payloads, which the request tags of the model elide. -/
def schedule_zoom_meeting (_zoom_acc_id _zoom_client_id _zoom_secret : String)
    (_role : Role) (_interview_date : ℤ) (_company_name : String)
    (zr : ZoomResponses) : Option String × List ZoomRequest :=
  match zoom_attempt zr with
  | (.ok link, reqs) => (some link, reqs)
  | (.error _, reqs) => (none, reqs)

/-- The sidebar configuration dict (source lines 274-282). -/
structure Config where
  openai_api_key : String
  zoom_account_id : String
  zoom_client_id : String
  zoom_client_secret : String
  sender_email : String
  email_app_password : String
  company_name : String

/-- One entry of the scheduled_interviews ledger (source lines 349-356); the
source stores the slot's date and time components, modelled by the slot value
itself. -/
structure ScheduledInterview where
  email : String
  role : Role
  slot : ℤ
deriving DecidableEq

/-- schedule_interview (source lines 349-356): append one entry to the ledger. -/
def schedule_interview (ledger : List ScheduledInterview)
    (candidate_email : String) (role : Role) (selected_slot : ℤ) :
    List ScheduledInterview :=
  ledger ++ [⟨candidate_email, role, selected_slot⟩]

/-- Observable outcome of one pass through the send-and-schedule branch of main. -/
structure FlowResult where
  selection_email_sent : Bool
  interview_email_sent : Bool
  ledger : List ScheduledInterview
  metrics : Metrics

/-- The "Send Email and Schedule Interview" branch of main for an accepted
candidate with non-empty resume text (source lines 624-648): send the selection
email, attempt the Zoom booking; on a link, send the interview-details email and
append to the ledger; either way call update_metrics with is_selected = true. -/
def accepted_submit (cfg : Config) (m : Metrics)
    (ledger : List ScheduledInterview) (candidate_email : String) (role : Role)
    (selected_slot : ℤ) (zr : ZoomResponses) : FlowResult :=
  let meeting_link :=
    (schedule_zoom_meeting cfg.zoom_account_id cfg.zoom_client_id
      cfg.zoom_client_secret role selected_slot cfg.company_name zr).1
  match meeting_link with
  | some _ =>
    { selection_email_sent := true
      interview_email_sent := true
      ledger := schedule_interview ledger candidate_email role selected_slot
      metrics := update_metrics m role true }
  | none =>
    { selection_email_sent := true
      interview_email_sent := false
      ledger := ledger
      metrics := update_metrics m role true }

/-- An empty configuration (all sidebar fields blank). -/
def cfg0 : Config := ⟨"", "", "", "", "", "", ""⟩

/-- Oracle run where the token endpoint answers 401: authentication fails. -/
def zrAuthFail : ZoomResponses := ⟨401, "", 0, ""⟩

/-- Oracle run where the token endpoint answers with the non-2xx status 304 yet a
token field, and the meeting endpoint succeeds. -/
def zr304 : ZoomResponses := ⟨304, "tok", 201, "https://zoom.us/j/1"⟩

/-- Oracle run where the token endpoint answers 401 with a token body present. -/
def zr401 : ZoomResponses := ⟨401, "tok", 201, "https://zoom.us/j/1"⟩

theorem takeMatch_iff : ∀ (pat l : List Char),
    takeMatch pat l = true ↔ ∃ rest, l = pat ++ rest
  | [], l => by simp [takeMatch]
  | a :: as, [] => by simp [takeMatch]
  | a :: as, b :: bs => by
    rw [show takeMatch (a :: as) (b :: bs) = (a == b && takeMatch as bs) from rfl,
      Bool.and_eq_true, beq_iff_eq, takeMatch_iff as bs]
    constructor
    · rintro ⟨rfl, rest, rfl⟩
      exact ⟨rest, rfl⟩
    · rintro ⟨rest, h⟩
      rw [List.cons_append] at h
      injection h with h1 h2
      exact ⟨h1.symm, rest, h2⟩

theorem hasSub_iff : ∀ (pat l : List Char),
    hasSub pat l = true ↔ ∃ pre post, l = pre ++ pat ++ post
  | pat, [] => by
    rw [show hasSub pat [] = takeMatch pat [] from rfl, takeMatch_iff]
    constructor
    · rintro ⟨rest, h⟩
      exact ⟨[], rest, by simpa using h⟩
    · rintro ⟨pre, post, h⟩
      rw [eq_comm, List.append_eq_nil, List.append_eq_nil] at h
      exact ⟨[], by simp [h.1.2]⟩
  | pat, b :: bs => by
    rw [show hasSub pat (b :: bs) = (takeMatch pat (b :: bs) || hasSub pat bs) from rfl,
      Bool.or_eq_true, takeMatch_iff, hasSub_iff pat bs]
    constructor
    · rintro (⟨rest, h⟩ | ⟨pre, post, h⟩)
      · exact ⟨[], rest, by simpa using h⟩
      · exact ⟨b :: pre, post, by simp [h]⟩
    · rintro ⟨pre, post, h⟩
      cases pre with
      | nil => exact Or.inl ⟨post, by simpa using h⟩
      | cons c cs =>
        rw [List.cons_append, List.cons_append] at h
        injection h with h1 h2
        exact Or.inr ⟨cs, post, h2⟩

/-- C1: in membership mode the decision accepts a candidate exactly when the
literal role identifier occurs as a case-sensitive contiguous substring of the
resume text, and in particular any resume text containing "backend_engineer" is
accepted for the role backend_engineer. -/
theorem analyze_resume_membership :
    (∀ resume_text role : String,
      (analyze_resume resume_text role).1 = true ↔
        ∃ pre post, resume_text.toList = pre ++ role.toList ++ post) ∧
    (∀ resume_text : String,
      (∃ pre post,
          resume_text.toList = pre ++ "backend_engineer".toList ++ post) →
        (analyze_resume resume_text "backend_engineer").1 = true) := by
  constructor
  · intro t r
    rw [show (analyze_resume t r).1 = hasSub r.toList t.toList from rfl]
    exact hasSub_iff _ _
  · intro t h
    rw [show (analyze_resume t "backend_engineer").1
        = hasSub "backend_engineer".toList t.toList from rfl, hasSub_iff]
    exact h

/-- C1 witness: a concrete accepted membership-mode run. -/
theorem analyze_resume_membership_witness :
    (∃ pre post, ("senior backend_engineer, Python").toList
        = pre ++ "backend_engineer".toList ++ post) ∧
    (analyze_resume "senior backend_engineer, Python" "backend_engineer").1 = true := by
  have h : ∃ pre post, ("senior backend_engineer, Python").toList
      = pre ++ "backend_engineer".toList ++ post :=
    ⟨"senior ".toList, ", Python".toList, by decide⟩
  exact ⟨h, analyze_resume_membership.2 "senior backend_engineer, Python" h⟩

/-- C3: on a role profile with non-empty required-skill and experience-keyword
lists, the scoring computation succeeds with skill and experience scores in
[0,1] and a total score in [0,1] equal to 0.7 * skill + 0.3 * experience. -/
theorem match_scores_props (required_skills experience_keywords : List String)
    (resume_text : String) (h1 : required_skills ≠ [])
    (h2 : experience_keywords ≠ []) :
    ∃ skill_score experience_score total_score,
      match_scores required_skills experience_keywords resume_text
        = Except.ok (skill_score, experience_score, total_score) ∧
      0 ≤ skill_score ∧ skill_score ≤ 1 ∧
      0 ≤ experience_score ∧ experience_score ≤ 1 ∧
      0 ≤ total_score ∧ total_score ≤ 1 ∧
      total_score = 7/10 * skill_score + 3/10 * experience_score := by
  have l1 : 0 < required_skills.length := List.length_pos.mpr h1
  have l2 : 0 < experience_keywords.length := List.length_pos.mpr h2
  have q1 : (0 : ℚ) < (required_skills.length : ℚ) := by exact_mod_cast l1
  have q2 : (0 : ℚ) < (experience_keywords.length : ℚ) := by exact_mod_cast l2
  have m1 : match_count required_skills resume_text.toLower
      ≤ required_skills.length := List.length_filter_le _ _
  have m2 : match_count experience_keywords resume_text.toLower
      ≤ experience_keywords.length := List.length_filter_le _ _
  set s : ℚ := (match_count required_skills resume_text.toLower : ℚ)
      / (required_skills.length : ℚ) with hs
  set e : ℚ := (match_count experience_keywords resume_text.toLower : ℚ)
      / (experience_keywords.length : ℚ) with he
  have d1 : py_div (match_count required_skills resume_text.toLower : ℚ)
      (required_skills.length : ℚ) = .ok s := by
    rw [py_div, if_neg q1.ne']
  have d2 : py_div (match_count experience_keywords resume_text.toLower : ℚ)
      (experience_keywords.length : ℚ) = .ok e := by
    rw [py_div, if_neg q2.ne']
  have hs0 : 0 ≤ s := div_nonneg (Nat.cast_nonneg _) q1.le
  have hs1 : s ≤ 1 := (div_le_one q1).mpr (by exact_mod_cast m1)
  have he0 : 0 ≤ e := div_nonneg (Nat.cast_nonneg _) q2.le
  have he1 : e ≤ 1 := (div_le_one q2).mpr (by exact_mod_cast m2)
  refine ⟨s, e, s * (7/10) + e * (3/10), ?_, hs0, hs1, he0, he1, ?_, ?_, by ring⟩
  · rw [match_scores]
    rw [d1, d2]
  · positivity
  · nlinarith

/-- C3 witness: a concrete profile with one skill and one keyword, both present
in the resume text. -/
theorem match_scores_props_witness :
    (["Python"] : List String) ≠ [] ∧ (["projects"] : List String) ≠ [] ∧
    (∃ skill_score experience_score total_score,
      match_scores ["Python"] ["projects"] "Python projects"
        = Except.ok (skill_score, experience_score, total_score) ∧
      0 ≤ skill_score ∧ skill_score ≤ 1 ∧
      0 ≤ experience_score ∧ experience_score ≤ 1 ∧
      0 ≤ total_score ∧ total_score ≤ 1 ∧
      total_score = 7/10 * skill_score + 3/10 * experience_score) :=
  ⟨by decide, by decide,
    match_scores_props ["Python"] ["projects"] "Python projects"
      (by decide) (by decide)⟩

theorem dict_lookup_error :
    ∀ (d : List (String × String)) (k : String) (e : PyError),
      dict_lookup d k = Except.error e → e = PyError.keyError := by
  intro d k
  induction d with
  | nil =>
    intro e h
    rw [dict_lookup] at h
    injection h with h1
    exact h1.symm
  | cons p rest ih =>
    obtain ⟨a, b⟩ := p
    intro e h
    by_cases hak : a = k
    · rw [dict_lookup, if_pos hak] at h
      exact absurd h (by simp)
    · rw [dict_lookup, if_neg hak] at h
      exact ih e h

/-- C4 (amended): match_skills_to_role fails with KeyError exactly when the role
is unknown and with TypeError when the role is known (the catalog entry is a
string, so subscripting it with "skills" raises before any division); it never
raises ZeroDivisionError and never raises the spec's ConfigurationError, which
the source does not define. -/
theorem match_skills_error_kinds :
    ∀ (resume_text role : String),
      match_skills_to_role resume_text role =
        Except.error
          (if known_role role then PyError.typeError else PyError.keyError) ∧
      match_skills_to_role resume_text role
        ≠ Except.error PyError.zeroDivisionError ∧
      match_skills_to_role resume_text role
        ≠ Except.error PyError.configurationError := by
  intro t r
  cases hd : dict_lookup ROLE_REQUIREMENTS r with
  | error e =>
    have hke : e = PyError.keyError := dict_lookup_error _ _ _ hd
    subst hke
    have hm : match_skills_to_role t r = Except.error PyError.keyError := by
      rw [match_skills_to_role, hd]
    have hk : known_role r = false := by rw [known_role, hd]
    rw [hm, hk]
    refine ⟨by simp, by simp, by simp⟩
  | ok entry =>
    have hm : match_skills_to_role t r = Except.error PyError.typeError := by
      rw [match_skills_to_role, hd]
      rfl
    have hk : known_role r = true := by rw [known_role, hd]
    rw [hm, hk]
    refine ⟨by simp, by simp, by simp⟩

/-- C4 counterexample: for the unknown role "security_engineer" the matcher
raises KeyError, which is not the ConfigurationError the claim names (no
ConfigurationError exists in the source). -/
theorem match_skills_unknown_role_cex :
    match_skills_to_role "" "security_engineer" = Except.error PyError.keyError ∧
    PyError.keyError ≠ PyError.configurationError :=
  ⟨rfl, by decide⟩

/-- C9: for every role identifier present in the role catalog and every resume
text, match_skills_to_role raises TypeError — each catalog entry is a plain
string, so subscripting it with "skills" fails and no score is ever returned. -/
theorem match_skills_to_role_raises (resume_text role : String)
    (h : role ∈ ROLE_REQUIREMENTS.map Prod.fst) :
    match_skills_to_role resume_text role = Except.error PyError.typeError := by
  have h4 : role = "ai_ml_engineer" ∨ role = "full_stack_engineer" ∨
      role = "frontend_engineer" ∨ role = "backend_engineer" := by
    simpa [ROLE_REQUIREMENTS] using h
  rcases h4 with rfl | rfl | rfl | rfl <;> rfl

/-- C9 witness: the catalog role backend_engineer with a resume matching its
description still yields TypeError, not a score. -/
theorem match_skills_to_role_raises_witness :
    ("backend_engineer" ∈ ROLE_REQUIREMENTS.map Prod.fst) ∧
    match_skills_to_role "Python, Django/Flask, REST APIs" "backend_engineer"
      = Except.error PyError.typeError :=
  ⟨by decide,
    match_skills_to_role_raises "Python, Django/Flask, REST APIs"
      "backend_engineer" (by decide)⟩

/-- C5: for every date the slot generator returns exactly the 8 slots with start
hours 9 through 16 of that date, in strictly increasing order, and it is a pure
function of the date. -/
theorem available_time_slots_spec (d : ℤ) :
    available_time_slots d =
      [24 * d + 9, 24 * d + 10, 24 * d + 11, 24 * d + 12,
       24 * d + 13, 24 * d + 14, 24 * d + 15, 24 * d + 16] ∧
    (available_time_slots d).length = 8 ∧
    List.Chain' (· < ·) (available_time_slots d) ∧
    available_time_slots d = available_time_slots d := by
  have h0 : List.range' 9 8 = [9, 10, 11, 12, 13, 14, 15, 16] := rfl
  have hl : available_time_slots d =
      [24 * d + 9, 24 * d + 10, 24 * d + 11, 24 * d + 12,
       24 * d + 13, 24 * d + 14, 24 * d + 15, 24 * d + 16] := by
    rw [available_time_slots, h0]
    simp
  refine ⟨hl, by rw [hl]; rfl, ?_, rfl⟩
  rw [hl]
  simp only [List.chain'_cons, List.chain'_singleton, and_true]
  omega

theorem update_metrics_apps (m : Metrics) (r : Role) (b : Bool) :
    (update_metrics m r b).applications_by_role
      = Function.update m.applications_by_role r (m.applications_by_role r + 1) := by
  cases b <;> rfl

theorem update_metrics_total (m : Metrics) (r : Role) (b : Bool) :
    (update_metrics m r b).total_resumes_uploaded
      = m.total_resumes_uploaded + 1 := by
  cases b <;> rfl

theorem sumApps_update (m : Metrics) (r : Role) (b : Bool) :
    sumApps (update_metrics m r b) = sumApps m + 1 := by
  rw [sumApps, sumApps, update_metrics_apps]
  cases r <;> simp [roleList, Function.update_apply] <;> omega

theorem countRole_cons (c : Role × Bool) (cs : List (Role × Bool)) (r : Role) :
    countRole (c :: cs) r = (if c.1 = r then 1 else 0) + countRole cs r := by
  rw [countRole, countRole, List.filter_cons]
  by_cases hc : c.1 = r
  · simp [hc]
    omega
  · simp [hc]

theorem runCalls_spec :
    ∀ (calls : List (Role × Bool)) (m : Metrics) (r : Role),
      (runCalls m calls).applications_by_role r
        = m.applications_by_role r + countRole calls r ∧
      (runCalls m calls).total_resumes_uploaded
        = m.total_resumes_uploaded + calls.length ∧
      sumApps (runCalls m calls) = sumApps m + calls.length := by
  intro calls
  induction calls with
  | nil => intro m r; simp [runCalls, countRole]
  | cons c cs ih =>
    intro m r
    have hstep : runCalls m (c :: cs) = runCalls (update_metrics m c.1 c.2) cs := rfl
    obtain ⟨ha, ht, hs⟩ := ih (update_metrics m c.1 c.2) r
    rw [hstep]
    refine ⟨?_, ?_, ?_⟩
    · rw [ha, update_metrics_apps, Function.update_apply, countRole_cons]
      by_cases hc : c.1 = r
      · subst hc
        simp only [eq_self_iff_true, if_true]
        omega
      · have hrc : ¬(r = c.1) := fun h => hc h.symm
        rw [if_neg hrc, if_neg hc]
        omega
    · rw [ht, update_metrics_total, List.length_cons]
      omega
    · rw [hs, sumApps_update, List.length_cons]
      omega

/-- C6: a single update_metrics call for role r, whatever the outcome flag,
increments total_resumes_uploaded by one and the application counter of exactly
the role r by one; consequently, after any sequence of calls from the initial
state, each per-role application count equals the number of calls with that role
and total_resumes_uploaded equals the sum of the per-role application counts. -/
theorem update_metrics_counts :
    (∀ (m : Metrics) (r : Role) (b : Bool),
      (update_metrics m r b).applications_by_role
        = Function.update m.applications_by_role r (m.applications_by_role r + 1) ∧
      (update_metrics m r b).total_resumes_uploaded
        = m.total_resumes_uploaded + 1) ∧
    (∀ (calls : List (Role × Bool)) (r : Role),
      (runCalls init_metrics calls).applications_by_role r = countRole calls r ∧
      (runCalls init_metrics calls).total_resumes_uploaded
        = sumApps (runCalls init_metrics calls)) := by
  constructor
  · intro m r b
    exact ⟨update_metrics_apps m r b, update_metrics_total m r b⟩
  · intro calls r
    obtain ⟨ha, ht, hs⟩ := runCalls_spec calls init_metrics r
    constructor
    · rw [ha]
      simp [init_metrics]
    · rw [ht, hs]
      simp [init_metrics, sumApps, roleList]

/-- C8: the reset operation brings every counter — the three global counters and
all three per-role counters of every role — to 0. -/
theorem reset_zeroes :
    ∀ (m : Metrics) (r : Role),
      (reset m).total_resumes_uploaded = 0 ∧
      (reset m).selected_candidates = 0 ∧
      (reset m).interviews_scheduled = 0 ∧
      (reset m).applications_by_role r = 0 ∧
      (reset m).role_selected r = 0 ∧
      (reset m).role_interviewed r = 0 :=
  fun _ _ => ⟨rfl, rfl, rfl, rfl, rfl, rfl⟩

/-- C2 evaluation at the failing input: an accepted candidate whose Zoom booking
fails (token endpoint answers 401, so no meeting link exists) still drives
interviews_scheduled from 0 to 1, because main calls update_metrics with
is_selected = true regardless of the booking outcome. -/
theorem interviews_scheduled_increment_despite_failed_booking :
    (schedule_zoom_meeting cfg0.zoom_account_id cfg0.zoom_client_id
        cfg0.zoom_client_secret Role.backend_engineer 0 cfg0.company_name
        zrAuthFail).1 = none ∧
    init_metrics.interviews_scheduled = 0 ∧
    (accepted_submit cfg0 init_metrics [] "candidate@example.com"
        Role.backend_engineer 0 zrAuthFail).metrics.interviews_scheduled = 1 :=
  ⟨rfl, rfl, rfl⟩

/-- C7 counterexample: a token-endpoint response with the non-2xx status 304 and
a token field present slips past raise_for_status (which raises only for 4xx and
5xx), so the meeting-creation request is still sent and the booking even
succeeds. -/
theorem schedule_zoom_non2xx_cex :
    ¬(200 ≤ zr304.token_status ∧ zr304.token_status < 300) ∧
    (schedule_zoom_meeting "" "" "" Role.backend_engineer 0 "" zr304).1
      = some "https://zoom.us/j/1" ∧
    ZoomRequest.meetingRequest
      ∈ (schedule_zoom_meeting "" "" "" Role.backend_engineer 0 "" zr304).2 :=
  ⟨by decide, rfl, by decide⟩

/-- C7 (amended): when the token endpoint returns a 4xx or 5xx status — the
statuses raise_for_status treats as errors — the attempt raises HTTPError at the
token step, booking yields the generic failure value None (the source surfaces
no distinct AuthFailure kind), and no meeting-creation request is sent. -/
theorem schedule_zoom_auth_failure (a b c : String) (role : Role) (d : ℤ)
    (cn : String) (zr : ZoomResponses) (h4 : 400 ≤ zr.token_status)
    (h6 : zr.token_status < 600) :
    (schedule_zoom_meeting a b c role d cn zr).1 = none ∧
    ZoomRequest.meetingRequest ∉ (schedule_zoom_meeting a b c role d cn zr).2 ∧
    (zoom_attempt zr).1 = Except.error ZoomExc.httpError := by
  have hr : raise_for_status zr.token_status = Except.error ZoomExc.httpError := by
    rw [raise_for_status, if_pos ⟨h4, h6⟩]
  have hz : zoom_attempt zr
      = (Except.error ZoomExc.httpError, [ZoomRequest.tokenRequest]) := by
    rw [zoom_attempt, hr]
  refine ⟨?_, ?_, ?_⟩ <;> simp [schedule_zoom_meeting, hz]

/-- C7 witness: a concrete 401 token response. -/
theorem schedule_zoom_auth_failure_witness :
    (400 ≤ zr401.token_status) ∧ (zr401.token_status < 600) ∧
    ((schedule_zoom_meeting "" "" "" Role.backend_engineer 0 "" zr401).1 = none ∧
     ZoomRequest.meetingRequest
       ∉ (schedule_zoom_meeting "" "" "" Role.backend_engineer 0 "" zr401).2 ∧
     (zoom_attempt zr401).1 = Except.error ZoomExc.httpError) :=
  ⟨by decide, by decide,
    schedule_zoom_auth_failure "" "" "" Role.backend_engineer 0 "" zr401
      (by decide) (by decide)⟩

/-- C10: the booking function returns either a join URL or None for every
response of the two external calls (the catch-all except never lets an exception
propagate), and the caller treats None as failure: it skips the
interview-details email and leaves the interview ledger unchanged. -/
theorem schedule_zoom_total_and_caller :
    (∀ (a b c : String) (role : Role) (d : ℤ) (cn : String) (zr : ZoomResponses),
      (schedule_zoom_meeting a b c role d cn zr).1 = none ∨
      ∃ url, (schedule_zoom_meeting a b c role d cn zr).1 = some url) ∧
    (∀ (cfg : Config) (m : Metrics) (ledger : List ScheduledInterview)
        (email : String) (role : Role) (slot : ℤ) (zr : ZoomResponses),
      (schedule_zoom_meeting cfg.zoom_account_id cfg.zoom_client_id
          cfg.zoom_client_secret role slot cfg.company_name zr).1 = none →
      (accepted_submit cfg m ledger email role slot zr).interview_email_sent
        = false ∧
      (accepted_submit cfg m ledger email role slot zr).ledger = ledger) := by
  constructor
  · intro a b c role d cn zr
    cases h : (schedule_zoom_meeting a b c role d cn zr).1 with
    | none => exact Or.inl rfl
    | some u => exact Or.inr ⟨u, rfl⟩
  · intro cfg m ledger email role slot zr h
    have hu : accepted_submit cfg m ledger email role slot zr
        = { selection_email_sent := true
            interview_email_sent := false
            ledger := ledger
            metrics := update_metrics m role true } := by
      rw [accepted_submit]
      rw [h]
    rw [hu]
    exact ⟨rfl, rfl⟩

/-- C10 witness: a concrete failed booking leaves the ledger empty and sends no
interview email. -/
theorem schedule_zoom_total_and_caller_witness :
    (schedule_zoom_meeting cfg0.zoom_account_id cfg0.zoom_client_id
        cfg0.zoom_client_secret Role.backend_engineer 0 cfg0.company_name
        zrAuthFail).1 = none ∧
    (accepted_submit cfg0 init_metrics [] "c@example.com" Role.backend_engineer 0
        zrAuthFail).interview_email_sent = false ∧
    (accepted_submit cfg0 init_metrics [] "c@example.com" Role.backend_engineer 0
        zrAuthFail).ledger = [] := by
  have h : (schedule_zoom_meeting cfg0.zoom_account_id cfg0.zoom_client_id
      cfg0.zoom_client_secret Role.backend_engineer 0 cfg0.company_name
      zrAuthFail).1 = none := rfl
  obtain ⟨h1, h2⟩ := schedule_zoom_total_and_caller.2 cfg0 init_metrics []
    "c@example.com" Role.backend_engineer 0 zrAuthFail h
  exact ⟨h, h1, h2⟩

end Recruit
